import Mathlib

/-!
Verification development for the trace frame-search pipeline.

The definitions below are a shallow embedding of the TypeScript sources:

* `backend/src/utils/screenshotSearch.ts` — the search orchestrator
  (`searchSimilarFrames`);
* the local vector-db client (`querySimilarVectors`, `upsertFrameEmbeddings`,
  `VectorMetadata`);
* `backend/src/scripts/bulkVideoImport.ts` — the ingestion driver
  (`importSingleVideo`).

JavaScript numbers are modelled as rationals (`ℚ`) where they carry scores,
coordinates or timestamps, and as `Int`/`Nat` where they are identifiers or
counts.  Effectful steps (HTTP fetch, the filesystem, the extraction job, the
wall clock) are passed in as explicit parameters, and the vector-store query a
search issues is returned alongside the value so that call behaviour can be
stated.  Fallible code returns `Except String`.
-/

namespace Trace

/-- Metadata attached to every vector record, mirroring the `VectorMetadata`
interface of the vector-db client (13 fields). -/
structure VectorMetadata where
  frameId : Int
  movieId : Int
  framePath : String
  timestamp : ℚ
  director : String
  movieTitle : String
  movieUrl : String
  patchType : String
  x : ℚ
  y : ℚ
  width : ℚ
  height : ℚ
  createdAt : String
deriving DecidableEq

/-- A search result as returned by the vector-db client: `{id, score, metadata}`. -/
structure SearchResult where
  id : String
  score : ℚ
  metadata : VectorMetadata
deriving DecidableEq

/-- One patch embedding of the query screenshot, mirroring the
`ScreenshotEmbedding` interface of `screenshotSearch.ts`. -/
structure ScreenshotEmbedding where
  patchType : String
  embedding : List ℚ
  x : ℚ
  y : ℚ
  width : ℚ
  height : ℚ
deriving DecidableEq

/-- The body of a POST to the vector-db `query` endpoint, mirroring the
`SearchRequest` interface (`filter` is only ever `\x7b patchType: ... \x7d` in this
code base, so it is modelled by the optional patch type it selects). -/
structure QueryCall where
  embedding : List ℚ
  limit : Nat
  filterPatchType : Option String
  threshold : Option ℚ
deriving DecidableEq

/-- Outcome of the `fetch` of the vector-db query endpoint: an ok response
carrying `data.results || []` and `data.fallback || []`, a non-ok HTTP status,
or a network error (rejected promise). -/
inductive FetchOutcome where
  | ok (results fallback : List SearchResult)
  | httpError (status : Nat)
  | networkError (msg : String)
deriving DecidableEq

/-- `querySimilarVectors` from the vector-db client: builds the search request,
performs the fetch, and either returns `\x7b results, fallback \x7d` or throws.  The
request sent is returned as the second component so callers' query traffic can
be reasoned about.  Error strings follow the source: a non-ok response throws
`Failed to query vectors: <status>` inside the try block, and the catch wraps
any error in `Failed to query similar vectors: <message>`. -/
def querySimilarVectors (fetch : QueryCall → FetchOutcome) (queryEmbedding : List ℚ)
    (topK : Nat) (filterPatchType : Option String) (threshold : Option ℚ) :
    Except String (List SearchResult × List SearchResult) × QueryCall :=
  let searchRequest : QueryCall :=
    { embedding := queryEmbedding
      limit := topK
      filterPatchType := filterPatchType
      threshold := threshold }
  match fetch searchRequest with
  | .ok results fallback => (.ok (results, fallback), searchRequest)
  | .httpError status =>
      (.error ("Failed to query similar vectors: " ++
        ("Failed to query vectors: " ++ toString status)), searchRequest)
  | .networkError msg =>
      (.error ("Failed to query similar vectors: " ++ msg), searchRequest)

/-- The deduplication step of `searchSimilarFrames`:
`allResults.filter((result, index, self) => index === self.findIndex(r =>
r.metadata.framePath === result.metadata.framePath))` — an element is kept
exactly when its index equals the index of the first element sharing its
`framePath`. -/
def dedupByFramePath (l : List SearchResult) : List SearchResult :=
  (l.enum.filter (fun p =>
    l.findIdx (fun r => r.metadata.framePath == p.2.metadata.framePath) == p.1)).map Prod.snd

/-- The comparison used by `uniqueResults.sort((a, b) => a.score - b.score)`:
ascending score. -/
def scoreLE (a b : SearchResult) : Prop := a.score ≤ b.score

instance : DecidableRel scoreLE := fun a b => inferInstanceAs (Decidable (a.score ≤ b.score))

instance : IsTotal SearchResult scoreLE := ⟨fun a b => le_total a.score b.score⟩

instance : IsTrans SearchResult scoreLE := ⟨fun _ _ _ h1 h2 => le_trans h1 h2⟩

/-- The `\x7b results, fallback \x7d` object `searchSimilarFrames` resolves with. -/
structure SearchResponse where
  results : List SearchResult
  fallback : List SearchResult
deriving DecidableEq

instance {ε α : Type} [DecidableEq ε] [DecidableEq α] : DecidableEq (Except ε α) := fun a b =>
  match a, b with
  | .ok x, .ok y => if h : x = y then .isTrue (by rw [h]) else .isFalse (by simp [h])
  | .error x, .error y => if h : x = y then .isTrue (by rw [h]) else .isFalse (by simp [h])
  | .ok _, .error _ => .isFalse (by simp)
  | .error _, .ok _ => .isFalse (by simp)

/-- Value returned by the search orchestrator together with the trace of
vector-store queries it issued. -/
structure SearchOutcome where
  value : Except String SearchResponse
  calls : List QueryCall
deriving DecidableEq

/-- `searchSimilarFrames` from `screenshotSearch.ts`: find the `full` patch
(throwing `No full patch embedding found` when absent), query the vector store
once with `filter = \x7b patchType: 'full' \x7d`, take the primary results if any,
otherwise the fallback, deduplicate by frame path, sort ascending by score and
return `\x7b results, fallback: [] \x7d`.  Its catch block wraps any thrown message
in `Failed to search similar frames: <message>`.  The JavaScript `sort` (stable,
ascending comparator) is modelled by the stable `List.insertionSort`. -/
def searchSimilarFrames (fetch : QueryCall → FetchOutcome)
    (screenshotEmbeddings : List ScreenshotEmbedding) (limit : Nat) : SearchOutcome :=
  match screenshotEmbeddings.find? (fun e => e.patchType == "full") with
  | none =>
      { value := .error ("Failed to search similar frames: " ++ "No full patch embedding found")
        calls := [] }
  | some fullPatch =>
      let q := querySimilarVectors fetch fullPatch.embedding limit (some "full") none
      match q.1 with
      | .error msg =>
          { value := .error ("Failed to search similar frames: " ++ msg), calls := [q.2] }
      | .ok (results, fallback) =>
          let allResults :=
            if results.length > 0 then results
            else if fallback.length > 0 then fallback
            else []
          let uniqueResults := dedupByFramePath allResults
          { value := .ok { results := uniqueResults.insertionSort scoreLE, fallback := [] }
            calls := [q.2] }

/-- `searchSimilarFrames` at its default `limit = 3` (the TypeScript signature
is `limit: number = 3`). -/
def searchSimilarFramesDefault (fetch : QueryCall → FetchOutcome)
    (screenshotEmbeddings : List ScreenshotEmbedding) : SearchOutcome :=
  searchSimilarFrames fetch screenshotEmbeddings 3

/-- One entry of the `embeddings` argument of `upsertFrameEmbeddings`
(`x`, `y`, `width`, `height` are optional in the TypeScript interface). -/
structure EmbeddingInput where
  patchType : String
  embedding : List ℚ
  x : Option ℚ
  y : Option ℚ
  width : Option ℚ
  height : Option ℚ
deriving DecidableEq

/-- A vector record as sent to the vector-db `upsert` endpoint. -/
structure VectorRecord where
  id : String
  embedding : List ℚ
  metadata : VectorMetadata
deriving DecidableEq

/-- The vector-construction part of `upsertFrameEmbeddings`: each embedding at
position `index` becomes a record with id `frame_<frameId>_<patchType>_<index>`
and the thirteen-field metadata object.  `new Date().toISOString()` is the
explicit `now` parameter; `x || 0` etc. are modelled by `Option.getD 0`. -/
def upsertVectors (frameId movieId : Int) (framePath : String) (timestamp : ℚ)
    (director movieTitle : String) (embeddings : List EmbeddingInput)
    (now : String) : List VectorRecord :=
  embeddings.enum.map (fun p =>
    { id := "frame_" ++ toString frameId ++ "_" ++ p.2.patchType ++ "_" ++ toString p.1
      embedding := p.2.embedding
      metadata :=
        { frameId := frameId
          movieId := movieId
          framePath := framePath
          timestamp := timestamp
          director := director
          movieTitle := movieTitle
          movieUrl := "file://" ++ framePath
          patchType := p.2.patchType
          x := p.2.x.getD 0
          y := p.2.y.getD 0
          width := p.2.width.getD 0
          height := p.2.height.getD 0
          createdAt := now } })

/-- A JSON scalar, for stating the wire shape of the metadata object. -/
inductive JSValue where
  | num : ℚ → JSValue
  | str : String → JSValue
deriving DecidableEq

/-- The metadata object literal of `upsertFrameEmbeddings` as the key/value
list it is serialized to, keys in source order. -/
def metadataToKV (m : VectorMetadata) : List (String × JSValue) :=
  [("frameId", .num m.frameId),
   ("movieId", .num m.movieId),
   ("framePath", .str m.framePath),
   ("timestamp", .num m.timestamp),
   ("director", .str m.director),
   ("movieTitle", .str m.movieTitle),
   ("movieUrl", .str m.movieUrl),
   ("patchType", .str m.patchType),
   ("x", .num m.x),
   ("y", .num m.y),
   ("width", .num m.width),
   ("height", .num m.height),
   ("createdAt", .str m.createdAt)]

/-- Modelled from the spec: the vector-db server behind `POST /vector-db/upsert`
is not part of the sources (only its TypeScript client is).  §4.4 of the spec
says `upsert` "writes or overwrites records by deterministic id".  The store is
modelled as a map from id to record; an upsert batch overwrites each id that
occurs in the batch with the last record bearing it and leaves every other id
unchanged. -/
def storeAfterUpsert (store : String → Option VectorRecord) (recs : List VectorRecord) :
    String → Option VectorRecord :=
  fun i =>
    match recs.reverse.find? (fun r => r.id == i) with
    | some r => some r
    | none => store i

/-- Modelled from the spec: the vector-db server behind `POST /vector-db/query`
is not part of the sources (only its TypeScript client is).  §4.4 of the spec
says `query` "Returns up to `limit` results ordered by ascending distance" and,
when fewer than `limit` results clear the threshold, additionally a `fallback`
list of the next-best results, likewise capped at `limit`. -/
def StoreRespectsLimit (limit : Nat) (results fallback : List SearchResult) : Prop :=
  results.length ≤ limit ∧ fallback.length ≤ limit

/-- One processed frame of `importSingleVideo`: `\x7b framePath, timestamp,
patches: [] \x7d`. -/
structure ProcessedFrame where
  framePath : String
  timestamp : Nat
  patches : List Unit
deriving DecidableEq

/-- Outcome of the asynchronous extraction/embedding job started by
`importSingleVideo` when extraction is not skipped: the job finishes (after
which the frames directory is listed again) or ends in the `error` status. -/
inductive ExtractionResult where
  | done (dirFiles : List String)
  | jobError (msg : String)
deriving DecidableEq

/-- `frameFiles.map((file, idx) => (\x7b framePath: path.join(framesOutputDir,
file), timestamp: idx * 3, patches: [] \x7d))` from `importSingleVideo`.
`path.join` is modelled as `dir ++ "/" ++ file`. -/
def processedFramesOf (framesOutputDir : String) (frameFiles : List String) :
    List ProcessedFrame :=
  frameFiles.enum.map (fun p =>
    { framePath := framesOutputDir ++ "/" ++ p.2
      timestamp := p.1 * 3
      patches := [] })

/-- JavaScript's `String.prototype.endsWith`, as a suffix test on the character
list of the string. -/
def strEndsWith (s suff : String) : Bool := suff.data.isSuffixOf s.data

/-- The frame-collection part of `importSingleVideo` (bulkVideoImport.ts lines
49–109).  The filesystem is explicit: `framesDirExists` is
`fs.existsSync(framesOutputDir)` and `dirFiles` is `fs.readdirSync`'s listing.
When `skipExtraction` is set, the directory exists and holds at least one
`.jpg`, the existing frames are reused and the extraction job is never started;
otherwise the job runs (its outcome is the `extraction` parameter — a failed
job throws `Embedding job failed: <error>`) and the directory is enumerated
afterwards.  The returned boolean records whether extraction was invoked. -/
def importSingleVideo (skipExtraction framesDirExists : Bool) (dirFiles : List String)
    (extraction : ExtractionResult) (framesOutputDir : String) :
    Except String (Bool × List ProcessedFrame) :=
  let frameFiles := dirFiles.filter (fun f => strEndsWith f ".jpg")
  if skipExtraction ∧ framesDirExists ∧ frameFiles.length > 0 then
    .ok (false, processedFramesOf framesOutputDir frameFiles)
  else
    match extraction with
    | .jobError msg => .error ("Embedding job failed: " ++ msg)
    | .done postFiles =>
        .ok (true, processedFramesOf framesOutputDir
          (postFiles.filter (fun f => strEndsWith f ".jpg")))

/-! ### Sample data

Concrete inputs used to evaluate the embedded functions in closed theorems. -/

/-- Sample metadata for a stored frame `frames/a.jpg`. -/
def sampleMetaA : VectorMetadata :=
  ⟨1, 1, "frames/a.jpg", 0, "dir", "title", "file://frames/a.jpg", "full", 0, 0, 0, 0, "t0"⟩

/-- Sample metadata for a stored frame `frames/b.jpg`. -/
def sampleMetaB : VectorMetadata :=
  ⟨2, 1, "frames/b.jpg", 3, "dir", "title", "file://frames/b.jpg", "full", 0, 0, 0, 0, "t0"⟩

/-- A search result for frame A at distance 1. -/
def sampleResA : SearchResult := ⟨"frame_1_full_0", 1, sampleMetaA⟩

/-- A search result for frame B at distance 2. -/
def sampleResB : SearchResult := ⟨"frame_2_full_0", 2, sampleMetaB⟩

/-- A second search result referencing frame A's path, at distance 5. -/
def sampleResA2 : SearchResult := ⟨"frame_1_full_1", 5, sampleMetaA⟩

/-- A full-patch query embedding. -/
def sampleEmbFull : ScreenshotEmbedding := ⟨"full", [1, 0], 0, 0, 0, 0⟩

/-! ### Helper lemmas -/

theorem find?_of_getElem?_findIdx {α : Type} (q : α → Bool) (l : List α) :
    ∀ (i : Nat) (r : α), l[i]? = some r → l.findIdx q = i → q r = true →
      l.find? q = some r := by
  induction l with
  | nil => intro i r h _ _; simp at h
  | cons a t ih =>
    intro i r h hidx hq
    rw [List.findIdx_cons] at hidx
    cases hqa : q a with
    | true =>
      rw [hqa, cond_true] at hidx
      subst hidx
      rw [List.getElem?_cons_zero] at h
      rw [List.find?_cons_of_pos _ hqa]
      exact h
    | false =>
      rw [hqa, cond_false] at hidx
      subst hidx
      rw [List.getElem?_cons_succ] at h
      rw [List.find?_cons_of_neg _ (by simp [hqa])]
      exact ih _ r h rfl hq

theorem pairwise_fst_lt_enum {α : Type} (l : List α) :
    l.enum.Pairwise (fun p q => p.1 < q.1) := by
  rw [List.enum_eq_zip_range]
  have h := List.pairwise_lt_range l.length
  rw [← List.map_fst_zip (List.range l.length) l (by simp)] at h
  exact List.pairwise_map.mp h

/-- Every element the deduplication keeps is the first element of the input
carrying its frame path. -/
theorem mem_dedupByFramePath {l : List SearchResult} {r : SearchResult}
    (hr : r ∈ dedupByFramePath l) :
    l.find? (fun s => s.metadata.framePath == r.metadata.framePath) = some r := by
  unfold dedupByFramePath at hr
  rcases List.mem_map.mp hr with ⟨p, hp, hpr⟩
  obtain ⟨i, x⟩ := p
  rcases List.mem_filter.mp hp with ⟨hmem, hcond⟩
  subst hpr
  have hidx : l.findIdx (fun s => s.metadata.framePath == x.metadata.framePath) = i :=
    beq_iff_eq.mp hcond
  have hget : l[i]? = some x := List.mk_mem_enum_iff_getElem?.mp hmem
  exact find?_of_getElem?_findIdx _ l i x hget hidx (by simp)

/-- The deduplication output never repeats a frame path. -/
theorem dedupByFramePath_pairwise (l : List SearchResult) :
    (dedupByFramePath l).Pairwise
      (fun a b => a.metadata.framePath ≠ b.metadata.framePath) := by
  unfold dedupByFramePath
  rw [List.pairwise_map]
  have hp := List.Pairwise.sublist
    (@List.filter_sublist _
      (fun p => List.findIdx (fun r => r.metadata.framePath == p.2.metadata.framePath) l == p.1)
      l.enum)
    (pairwise_fst_lt_enum l)
  refine List.Pairwise.imp_of_mem ?_ hp
  intro a b ha hb hlt heq
  have hfa := List.of_mem_filter ha
  have hfb := List.of_mem_filter hb
  simp only at hfa hfb
  have hca : l.findIdx (fun r => r.metadata.framePath == a.2.metadata.framePath) = a.1 :=
    beq_iff_eq.mp hfa
  have hcb : l.findIdx (fun r => r.metadata.framePath == b.2.metadata.framePath) = b.1 :=
    beq_iff_eq.mp hfb
  rw [heq] at hca
  rw [hca] at hcb
  exact Nat.lt_irrefl _ (hcb ▸ hlt)

theorem length_dedupByFramePath_le (l : List SearchResult) :
    (dedupByFramePath l).length ≤ l.length := by
  unfold dedupByFramePath
  rw [List.length_map]
  calc (l.enum.filter _).length ≤ l.enum.length := List.length_filter_le _ _
    _ = l.length := List.enum_length

/-- Unfolding of the search orchestrator when a `full`-patch embedding exists
and the vector-store query responds with an ok payload. -/
theorem searchSimilarFrames_ok {fetch : QueryCall → FetchOutcome}
    {embs : List ScreenshotEmbedding} {limit : Nat} {fp : ScreenshotEmbedding}
    {res fb : List SearchResult}
    (hfp : embs.find? (fun e => e.patchType == "full") = some fp)
    (hfetch : fetch ⟨fp.embedding, limit, some "full", none⟩ = .ok res fb) :
    searchSimilarFrames fetch embs limit =
      { value := .ok
          { results := (dedupByFramePath
              (if res.length > 0 then res
               else if fb.length > 0 then fb else [])).insertionSort scoreLE
            fallback := [] }
        calls := [⟨fp.embedding, limit, some "full", none⟩] } := by
  unfold searchSimilarFrames querySimilarVectors
  rw [hfp]
  simp only [hfetch]

/-- The ids produced for a frame's embedding batch depend only on the frame id,
the patch types and the positions — in particular not on the clock. -/
theorem upsertVectors_ids (frameId movieId : Int) (framePath : String) (timestamp : ℚ)
    (director movieTitle : String) (embeddings : List EmbeddingInput) (now : String) :
    (upsertVectors frameId movieId framePath timestamp director movieTitle
        embeddings now).map (fun r => r.id)
      = embeddings.enum.map (fun p =>
          "frame_" ++ toString frameId ++ "_" ++ p.2.patchType ++ "_" ++ toString p.1) := by
  unfold upsertVectors
  rw [List.map_map]
  rfl

/-- Upserting a batch, then a second batch carrying the same ids, leaves the
store exactly as the second upsert alone would. -/
theorem storeAfterUpsert_overwrite {v1 v2 : List VectorRecord}
    (hids : v1.map (fun r => r.id) = v2.map (fun r => r.id))
    (s : String → Option VectorRecord) :
    storeAfterUpsert (storeAfterUpsert s v1) v2 = storeAfterUpsert s v2 := by
  funext i
  unfold storeAfterUpsert
  cases h2 : v2.reverse.find? (fun r => r.id == i) with
  | some r => rfl
  | none =>
    have h1 : v1.reverse.find? (fun r => r.id == i) = none := by
      rw [List.find?_eq_none] at h2 ⊢
      intro x hx
      have hxv : x ∈ v1 := List.mem_reverse.mp hx
      have hmap : x.id ∈ v1.map (fun r => r.id) := List.mem_map_of_mem _ hxv
      rw [hids] at hmap
      rcases List.mem_map.mp hmap with ⟨y, hy, hyid⟩
      have := h2 y (List.mem_reverse.mpr hy)
      rw [← hyid]
      exact this
    simp [h1]

theorem processedFramesOf_timestamps (d : String) (fs : List String) :
    (processedFramesOf d fs).map (fun f => f.timestamp)
      = (List.range fs.length).map (fun i => i * 3) := by
  unfold processedFramesOf
  rw [List.map_map, ← List.enum_map_fst fs, List.map_map]
  rfl

theorem length_processedFramesOf (d : String) (fs : List String) :
    (processedFramesOf d fs).length = fs.length := by
  unfold processedFramesOf
  rw [List.length_map, List.enum_length]

/-! ### Claim theorems -/

/-- Claim C1: whenever the embedding list contains a `full` patch and the
vector-store query responds, `searchSimilarFrames` resolves with a response
whose `fallback` field is the empty list, so the results list and the fallback
list are never both non-empty — the fallback is consumed internally. -/
theorem searchSimilarFrames_no_simultaneous_fallback
    (fetch : QueryCall → FetchOutcome) (embs : List ScreenshotEmbedding) (limit : Nat)
    (fp : ScreenshotEmbedding) (res fb : List SearchResult)
    (hfp : embs.find? (fun e => e.patchType == "full") = some fp)
    (hfetch : fetch ⟨fp.embedding, limit, some "full", none⟩ = .ok res fb) :
    ∃ out : SearchResponse, (searchSimilarFrames fetch embs limit).value = .ok out ∧
      out.fallback = [] ∧ ¬(out.results ≠ [] ∧ out.fallback ≠ []) := by
  rw [searchSimilarFrames_ok hfp hfetch]
  exact ⟨_, rfl, rfl, fun h => h.2 rfl⟩

/-- Witness for C1 at a concrete store response. -/
theorem searchSimilarFrames_no_simultaneous_fallback_witness :
    ([sampleEmbFull].find? (fun e => e.patchType == "full") = some sampleEmbFull
      ∧ (fun _ : QueryCall => FetchOutcome.ok [sampleResA] [])
          ⟨sampleEmbFull.embedding, 3, some "full", none⟩ = .ok [sampleResA] [])
    ∧ ∃ out : SearchResponse,
        (searchSimilarFrames (fun _ => .ok [sampleResA] []) [sampleEmbFull] 3).value
          = .ok out ∧ out.fallback = [] ∧ ¬(out.results ≠ [] ∧ out.fallback ≠ []) :=
  ⟨⟨by decide, rfl⟩,
   searchSimilarFrames_no_simultaneous_fallback (fun _ => .ok [sampleResA] [])
     [sampleEmbFull] 3 sampleEmbFull [sampleResA] [] (by decide) rfl⟩

/-- Claim C2: when the store's primary result list is empty,
`searchSimilarFrames` ranks the store's fallback list instead; when the primary
list is non-empty, the fallback list plays no part in the output. -/
theorem searchSimilarFrames_fallback_substitution
    (fetch : QueryCall → FetchOutcome) (embs : List ScreenshotEmbedding) (limit : Nat)
    (fp : ScreenshotEmbedding) (res fb : List SearchResult)
    (hfp : embs.find? (fun e => e.patchType == "full") = some fp)
    (hfetch : fetch ⟨fp.embedding, limit, some "full", none⟩ = .ok res fb) :
    (res = [] →
      (searchSimilarFrames fetch embs limit).value
        = .ok ⟨(dedupByFramePath fb).insertionSort scoreLE, []⟩)
    ∧ (res ≠ [] →
      (searchSimilarFrames fetch embs limit).value
        = .ok ⟨(dedupByFramePath res).insertionSort scoreLE, []⟩) := by
  rw [searchSimilarFrames_ok hfp hfetch]
  constructor
  · rintro rfl
    cases fb with
    | nil => simp
    | cons b t => simp
  · intro hres
    have hlen : res.length > 0 := List.length_pos.mpr hres
    simp [hlen]

/-- Witness for C2: an empty primary list with a non-empty fallback. -/
theorem searchSimilarFrames_fallback_substitution_witness :
    ([sampleEmbFull].find? (fun e => e.patchType == "full") = some sampleEmbFull
      ∧ (fun _ : QueryCall => FetchOutcome.ok [] [sampleResB])
          ⟨sampleEmbFull.embedding, 3, some "full", none⟩ = .ok [] [sampleResB])
    ∧ (([] : List SearchResult) = [] →
        (searchSimilarFrames (fun _ => .ok [] [sampleResB]) [sampleEmbFull] 3).value
          = .ok ⟨(dedupByFramePath [sampleResB]).insertionSort scoreLE, []⟩)
    ∧ (([] : List SearchResult) ≠ [] →
        (searchSimilarFrames (fun _ => .ok [] [sampleResB]) [sampleEmbFull] 3).value
          = .ok ⟨(dedupByFramePath []).insertionSort scoreLE, []⟩) :=
  ⟨⟨by decide, rfl⟩,
   (searchSimilarFrames_fallback_substitution (fun _ => .ok [] [sampleResB])
     [sampleEmbFull] 3 sampleEmbFull [] [sampleResB] (by decide) rfl).1,
   (searchSimilarFrames_fallback_substitution (fun _ => .ok [] [sampleResB])
     [sampleEmbFull] 3 sampleEmbFull [] [sampleResB] (by decide) rfl).2⟩

/-- Claim C3: the list `searchSimilarFrames` returns never repeats a frame
path, and every returned entry is the first candidate carrying its frame path
(the candidates being the store's primary results, or the fallback when the
primary list is empty). -/
theorem searchSimilarFrames_dedup_by_framePath
    (fetch : QueryCall → FetchOutcome) (embs : List ScreenshotEmbedding) (limit : Nat)
    (fp : ScreenshotEmbedding) (res fb : List SearchResult)
    (hfp : embs.find? (fun e => e.patchType == "full") = some fp)
    (hfetch : fetch ⟨fp.embedding, limit, some "full", none⟩ = .ok res fb) :
    ∃ out : SearchResponse, (searchSimilarFrames fetch embs limit).value = .ok out ∧
      out.results.Pairwise (fun a b => a.metadata.framePath ≠ b.metadata.framePath) ∧
      ∀ r ∈ out.results,
        (if res.length > 0 then res else if fb.length > 0 then fb else []).find?
          (fun s => s.metadata.framePath == r.metadata.framePath) = some r := by
  rw [searchSimilarFrames_ok hfp hfetch]
  refine ⟨_, rfl, ?_, ?_⟩
  · have hperm := List.perm_insertionSort scoreLE
      (dedupByFramePath (if res.length > 0 then res else if fb.length > 0 then fb else []))
    exact (List.Perm.pairwise_iff (fun h e => h e.symm) hperm).mpr
      (dedupByFramePath_pairwise _)
  · intro r hr
    exact mem_dedupByFramePath ((List.mem_insertionSort scoreLE).mp hr)

/-- Witness for C3 at a store response containing two records with the same
frame path. -/
theorem searchSimilarFrames_dedup_by_framePath_witness :
    ([sampleEmbFull].find? (fun e => e.patchType == "full") = some sampleEmbFull
      ∧ (fun _ : QueryCall => FetchOutcome.ok [sampleResB, sampleResA, sampleResA2] [])
          ⟨sampleEmbFull.embedding, 3, some "full", none⟩
            = .ok [sampleResB, sampleResA, sampleResA2] [])
    ∧ ∃ out : SearchResponse,
        (searchSimilarFrames (fun _ => .ok [sampleResB, sampleResA, sampleResA2] [])
          [sampleEmbFull] 3).value = .ok out ∧
        out.results.Pairwise (fun a b => a.metadata.framePath ≠ b.metadata.framePath) ∧
        ∀ r ∈ out.results,
          (if ([sampleResB, sampleResA, sampleResA2] : List SearchResult).length > 0
            then [sampleResB, sampleResA, sampleResA2]
            else if ([] : List SearchResult).length > 0 then [] else []).find?
            (fun s => s.metadata.framePath == r.metadata.framePath) = some r :=
  ⟨⟨by decide, rfl⟩,
   searchSimilarFrames_dedup_by_framePath
     (fun _ => .ok [sampleResB, sampleResA, sampleResA2] []) [sampleEmbFull] 3
     sampleEmbFull [sampleResB, sampleResA, sampleResA2] [] (by decide) rfl⟩

/-- Claim C4: assuming the store honours the query limit (spec §4.4, the server
itself is not among the sources), the result list `searchSimilarFrames` returns
for a query with limit `k` has at most `k` entries and its scores are in
non-decreasing order. -/
theorem searchSimilarFrames_limit_and_sorted
    (fetch : QueryCall → FetchOutcome) (embs : List ScreenshotEmbedding) (limit : Nat)
    (fp : ScreenshotEmbedding) (res fb : List SearchResult)
    (hfp : embs.find? (fun e => e.patchType == "full") = some fp)
    (hfetch : fetch ⟨fp.embedding, limit, some "full", none⟩ = .ok res fb)
    (hlim : StoreRespectsLimit limit res fb) :
    ∃ out : SearchResponse, (searchSimilarFrames fetch embs limit).value = .ok out ∧
      out.results.length ≤ limit ∧ out.results.Sorted scoreLE := by
  rw [searchSimilarFrames_ok hfp hfetch]
  refine ⟨_, rfl, ?_, List.sorted_insertionSort scoreLE _⟩
  rw [List.length_insertionSort]
  refine le_trans (length_dedupByFramePath_le _) ?_
  by_cases h1 : res.length > 0
  · simpa [h1] using hlim.1
  · by_cases h2 : fb.length > 0
    · simpa [h1, h2] using hlim.2
    · simp [h1, h2]

/-- Witness for C4 at a concrete store response respecting the limit. -/
theorem searchSimilarFrames_limit_and_sorted_witness :
    ([sampleEmbFull].find? (fun e => e.patchType == "full") = some sampleEmbFull
      ∧ (fun _ : QueryCall => FetchOutcome.ok [sampleResA, sampleResB] [])
          ⟨sampleEmbFull.embedding, 3, some "full", none⟩ = .ok [sampleResA, sampleResB] []
      ∧ StoreRespectsLimit 3 [sampleResA, sampleResB] [])
    ∧ ∃ out : SearchResponse,
        (searchSimilarFrames (fun _ => .ok [sampleResA, sampleResB] [])
          [sampleEmbFull] 3).value = .ok out ∧
        out.results.length ≤ 3 ∧ out.results.Sorted scoreLE :=
  ⟨⟨by decide, rfl, by constructor <;> decide⟩,
   searchSimilarFrames_limit_and_sorted (fun _ => .ok [sampleResA, sampleResB] [])
     [sampleEmbFull] 3 sampleEmbFull [sampleResA, sampleResB] [] (by decide) rfl
     (by constructor <;> decide)⟩

/-- Claim C5: vector record ids are `frame_<frameId>_<patchType>_<index>`, a
deterministic function of frame id, patch type and position (the clock value
does not enter), so upserting the same frame's embedding list twice — even at
different times — produces the identical id list and, against the modelled
store, merely overwrites: the store after the second upsert equals the store
the second upsert alone would produce. -/
theorem upsert_ids_deterministic_idempotent (frameId movieId : Int) (framePath : String)
    (timestamp : ℚ) (director movieTitle : String) (embeddings : List EmbeddingInput)
    (t1 t2 : String) (store : String → Option VectorRecord) :
    ((upsertVectors frameId movieId framePath timestamp director movieTitle
        embeddings t1).map (fun r => r.id)
      = (upsertVectors frameId movieId framePath timestamp director movieTitle
          embeddings t2).map (fun r => r.id))
    ∧ (upsertVectors frameId movieId framePath timestamp director movieTitle
        embeddings t1).map (fun r => r.id)
      = embeddings.enum.map (fun p =>
          "frame_" ++ toString frameId ++ "_" ++ p.2.patchType ++ "_" ++ toString p.1)
    ∧ storeAfterUpsert
        (storeAfterUpsert store
          (upsertVectors frameId movieId framePath timestamp director movieTitle
            embeddings t1))
        (upsertVectors frameId movieId framePath timestamp director movieTitle
          embeddings t2)
      = storeAfterUpsert store
          (upsertVectors frameId movieId framePath timestamp director movieTitle
            embeddings t2) := by
  have h1 := upsertVectors_ids frameId movieId framePath timestamp director movieTitle
    embeddings t1
  have h2 := upsertVectors_ids frameId movieId framePath timestamp director movieTitle
    embeddings t2
  exact ⟨h1.trans h2.symm, h1, storeAfterUpsert_overwrite (h1.trans h2.symm) store⟩

/-- Claim C6: every vector record built for an upsert carries the thirteen
metadata fields `frameId, movieId, framePath, timestamp, director, movieTitle,
movieUrl, patchType, x, y, width, height, createdAt` — exactly these, in this
order, with no duplicates. -/
theorem upsert_metadata_field_exact (frameId movieId : Int) (framePath : String)
    (timestamp : ℚ) (director movieTitle : String) (embeddings : List EmbeddingInput)
    (now : String) (rec : VectorRecord)
    (_hrec : rec ∈ upsertVectors frameId movieId framePath timestamp director movieTitle
      embeddings now) :
    (metadataToKV rec.metadata).map Prod.fst
      = ["frameId", "movieId", "framePath", "timestamp", "director", "movieTitle",
         "movieUrl", "patchType", "x", "y", "width", "height", "createdAt"]
    ∧ (metadataToKV rec.metadata).length = 13
    ∧ ((metadataToKV rec.metadata).map Prod.fst).Nodup := by
  refine ⟨rfl, rfl, ?_⟩
  have h : (metadataToKV rec.metadata).map Prod.fst
      = ["frameId", "movieId", "framePath", "timestamp", "director", "movieTitle",
         "movieUrl", "patchType", "x", "y", "width", "height", "createdAt"] := rfl
  rw [h]
  decide

/-- Witness for C6 at a concrete one-embedding upsert. -/
theorem upsert_metadata_field_exact_witness :
    (⟨"frame_7_full_0", [1],
        ⟨7, 1, "p", 0, "d", "t", "file://p", "full", 0, 0, 0, 0, "t0"⟩⟩
      ∈ upsertVectors 7 1 "p" 0 "d" "t" [⟨"full", [1], none, none, none, none⟩] "t0")
    ∧ ((metadataToKV
          (VectorRecord.mk "frame_7_full_0" [1]
            ⟨7, 1, "p", 0, "d", "t", "file://p", "full", 0, 0, 0, 0, "t0"⟩).metadata).map
          Prod.fst
        = ["frameId", "movieId", "framePath", "timestamp", "director", "movieTitle",
           "movieUrl", "patchType", "x", "y", "width", "height", "createdAt"]
      ∧ (metadataToKV
          (VectorRecord.mk "frame_7_full_0" [1]
            ⟨7, 1, "p", 0, "d", "t", "file://p", "full", 0, 0, 0, 0, "t0"⟩).metadata).length
          = 13
      ∧ ((metadataToKV
          (VectorRecord.mk "frame_7_full_0" [1]
            ⟨7, 1, "p", 0, "d", "t", "file://p", "full", 0, 0, 0, 0, "t0"⟩).metadata).map
          Prod.fst).Nodup) :=
  ⟨by decide,
   upsert_metadata_field_exact 7 1 "p" 0 "d" "t" [⟨"full", [1], none, none, none, none⟩]
     "t0" ⟨"frame_7_full_0", [1], ⟨7, 1, "p", 0, "d", "t", "file://p", "full", 0, 0, 0, 0, "t0"⟩⟩
     (by decide)⟩

/-- Claim C7: a failing vector-store query — non-ok HTTP status or network
error — makes `querySimilarVectors` throw, and `searchSimilarFrames` rethrows
the wrapped message: a backend failure is surfaced as an error, never as an
empty result list. -/
theorem searchPath_errors_propagate
    (fetch1 fetch2 : QueryCall → FetchOutcome) (embs : List ScreenshotEmbedding)
    (limit : Nat) (fp : ScreenshotEmbedding) (status : Nat) (msg : String)
    (hfp : embs.find? (fun e => e.patchType == "full") = some fp)
    (h1 : fetch1 ⟨fp.embedding, limit, some "full", none⟩ = .httpError status)
    (h2 : fetch2 ⟨fp.embedding, limit, some "full", none⟩ = .networkError msg) :
    (querySimilarVectors fetch1 fp.embedding limit (some "full") none).1
      = .error ("Failed to query similar vectors: "
          ++ ("Failed to query vectors: " ++ toString status))
    ∧ (querySimilarVectors fetch2 fp.embedding limit (some "full") none).1
      = .error ("Failed to query similar vectors: " ++ msg)
    ∧ (searchSimilarFrames fetch1 embs limit).value
      = .error ("Failed to search similar frames: "
          ++ ("Failed to query similar vectors: "
            ++ ("Failed to query vectors: " ++ toString status)))
    ∧ (searchSimilarFrames fetch2 embs limit).value
      = .error ("Failed to search similar frames: "
          ++ ("Failed to query similar vectors: " ++ msg)) := by
  refine ⟨?_, ?_, ?_, ?_⟩
  · unfold querySimilarVectors
    simp only [h1]
  · unfold querySimilarVectors
    simp only [h2]
  · unfold searchSimilarFrames querySimilarVectors
    rw [hfp]
    simp only [h1]
  · unfold searchSimilarFrames querySimilarVectors
    rw [hfp]
    simp only [h2]

/-- Witness for C7 at a concrete failing store. -/
theorem searchPath_errors_propagate_witness :
    ([sampleEmbFull].find? (fun e => e.patchType == "full") = some sampleEmbFull
      ∧ (fun _ : QueryCall => FetchOutcome.httpError 500)
          ⟨sampleEmbFull.embedding, 3, some "full", none⟩ = .httpError 500
      ∧ (fun _ : QueryCall => FetchOutcome.networkError "fetch failed")
          ⟨sampleEmbFull.embedding, 3, some "full", none⟩ = .networkError "fetch failed")
    ∧ ((querySimilarVectors (fun _ => .httpError 500) sampleEmbFull.embedding 3
          (some "full") none).1
        = .error ("Failed to query similar vectors: "
            ++ ("Failed to query vectors: " ++ toString 500))
      ∧ (querySimilarVectors (fun _ => .networkError "fetch failed")
          sampleEmbFull.embedding 3 (some "full") none).1
        = .error ("Failed to query similar vectors: " ++ "fetch failed")
      ∧ (searchSimilarFrames (fun _ => .httpError 500) [sampleEmbFull] 3).value
        = .error ("Failed to search similar frames: "
            ++ ("Failed to query similar vectors: "
              ++ ("Failed to query vectors: " ++ toString 500)))
      ∧ (searchSimilarFrames (fun _ => .networkError "fetch failed")
          [sampleEmbFull] 3).value
        = .error ("Failed to search similar frames: "
            ++ ("Failed to query similar vectors: " ++ "fetch failed"))) :=
  ⟨⟨by decide, rfl, rfl⟩,
   searchPath_errors_propagate (fun _ => .httpError 500)
     (fun _ => .networkError "fetch failed") [sampleEmbFull] 3 sampleEmbFull 500
     "fetch failed" (by decide) rfl rfl⟩

/-- Claim C8: with extraction-skipping enabled, an existing frames directory
holding at least one extracted `.jpg` frame makes ingestion reuse the existing
frames — the extraction job is not invoked (the result does not depend on the
extraction outcome at all) and the processed frames are exactly the enumerated
existing files. -/
theorem import_skips_extraction_when_frames_exist (dirFiles : List String)
    (extraction : ExtractionResult) (framesOutputDir : String)
    (h : (dirFiles.filter (fun f => strEndsWith f ".jpg")).length > 0) :
    importSingleVideo true true dirFiles extraction framesOutputDir
      = .ok (false, processedFramesOf framesOutputDir
          (dirFiles.filter (fun f => strEndsWith f ".jpg"))) := by
  unfold importSingleVideo
  rw [if_pos ⟨rfl, rfl, h⟩]

/-- Witness for C8: one existing frame, with an extraction job that would
fail if consulted. -/
theorem import_skips_extraction_when_frames_exist_witness :
    ((["a.jpg", "b.txt"].filter (fun f => strEndsWith f ".jpg")).length > 0)
    ∧ importSingleVideo true true ["a.jpg", "b.txt"] (.jobError "would fail") "frames/m"
      = .ok (false, processedFramesOf "frames/m"
          (["a.jpg", "b.txt"].filter (fun f => strEndsWith f ".jpg"))) :=
  ⟨by decide,
   import_skips_extraction_when_frames_exist ["a.jpg", "b.txt"] (.jobError "would fail")
     "frames/m" (by decide)⟩

/-- Claim C9: every frame list ingestion produces records timestamps
`index * 3` — the frame at ordinal position `i` of the processed sequence gets
timestamp `3 i`, on both the reuse path and the fresh-extraction path,
independent of decode speed (the model has no clock at all). -/
theorem ingestion_timestamps_linear (skipExtraction framesDirExists : Bool)
    (dirFiles : List String) (extraction : ExtractionResult) (framesOutputDir : String)
    (b : Bool) (frames : List ProcessedFrame)
    (h : importSingleVideo skipExtraction framesDirExists dirFiles extraction
      framesOutputDir = .ok (b, frames)) :
    frames.map (fun f => f.timestamp) = (List.range frames.length).map (fun i => i * 3) := by
  unfold importSingleVideo at h
  by_cases hc : skipExtraction = true ∧ framesDirExists = true ∧
      (dirFiles.filter (fun f => strEndsWith f ".jpg")).length > 0
  · rw [if_pos hc] at h
    simp only [Except.ok.injEq, Prod.mk.injEq] at h
    obtain ⟨-, hf⟩ := h
    subst hf
    rw [length_processedFramesOf]
    exact processedFramesOf_timestamps _ _
  · rw [if_neg hc] at h
    cases extraction with
    | jobError msg => simp at h
    | done post =>
      simp only [Except.ok.injEq, Prod.mk.injEq] at h
      obtain ⟨-, hf⟩ := h
      subst hf
      rw [length_processedFramesOf]
      exact processedFramesOf_timestamps _ _

/-- Witness for C9 on a fresh-extraction run producing two frames. -/
theorem ingestion_timestamps_linear_witness :
    (importSingleVideo false false [] (.done ["f0.jpg", "f1.jpg"]) "frames/m"
      = .ok (true, processedFramesOf "frames/m" ["f0.jpg", "f1.jpg"]))
    ∧ (processedFramesOf "frames/m" ["f0.jpg", "f1.jpg"]).map (fun f => f.timestamp)
      = (List.range (processedFramesOf "frames/m" ["f0.jpg", "f1.jpg"]).length).map
          (fun i => i * 3) :=
  ⟨by decide,
   ingestion_timestamps_linear false false [] (.done ["f0.jpg", "f1.jpg"]) "frames/m"
     true (processedFramesOf "frames/m" ["f0.jpg", "f1.jpg"]) (by decide)⟩

/-- Claim C10: when no `full`-patch embedding is present, `searchSimilarFrames`
fails with the `No full patch embedding found` error (wrapped by its catch
block) and issues no vector-store query; when one is present, exactly one
query is issued, filtered to `patchType = full`, with the given limit — and
the default limit is 3. -/
theorem searchSimilarFrames_query_discipline (fetch : QueryCall → FetchOutcome)
    (embs : List ScreenshotEmbedding) (limit : Nat) :
    (match embs.find? (fun e => e.patchType == "full") with
      | none => searchSimilarFrames fetch embs limit =
          { value := .error ("Failed to search similar frames: "
              ++ "No full patch embedding found")
            calls := [] }
      | some fp => (searchSimilarFrames fetch embs limit).calls
          = [⟨fp.embedding, limit, some "full", none⟩])
    ∧ searchSimilarFramesDefault fetch embs = searchSimilarFrames fetch embs 3 := by
  refine ⟨?_, rfl⟩
  cases hfp : embs.find? (fun e => e.patchType == "full") with
  | none =>
    unfold searchSimilarFrames
    rw [hfp]
  | some fp =>
    unfold searchSimilarFrames querySimilarVectors
    rw [hfp]
    rcases hq : fetch ⟨fp.embedding, limit, some "full", none⟩ with ⟨res, fb⟩ | st | m <;>
      simp [hq]

end Trace
